import Mathlib

/-!
Shallow embedding of the stor-client download core (Go sources
`src/client/download.go` and the pool/stats file, package `storclient`).

Modelling conventions:
* a digest (`hashutil.Hash`) is its byte sequence, `List Nat`; the zero
  value `hashutil.Hash{}` (the worker termination sentinel `workerEnd`)
  is the empty list;
* sha256 is an opaque parameter `hashFn : List Nat → List Nat` applied to
  the full byte stream (the Go code streams the bytes through a rolling
  hasher; only the final digest of the received bytes is observable);
* machine integers (`int64`, `time.Duration`) are `Int`;
* the filesystem as seen by one download is the pair of the two paths the
  code touches: the temp path `{target}.temp` and the final target path;
* fallible externals (HTTP `Get`, `OpenWriter`, `Rename`) are oracles:
  the response for the n-th attempt, and success flags for open/rename.
  `pathutil.Remove` of an existing file is modelled as succeeding;
  `hashutil.BytesToHash` on a sha256 sum (always 32 bytes) never fails,
  and the deferred `resp.Body.Close()` is modelled as succeeding.
-/

namespace StorClient

/-- A digest (`hashutil.Hash`): the byte sequence of the hash value. -/
abbrev Digest := List Nat

/-- The zero-valued digest `hashutil.Hash{}` used as the worker
termination sentinel (`workerEnd` in the pool file). -/
def workerEnd : Digest := []

/-- Modelled from the spec: the per-item outcome statuses `DOWN_OK`,
`DOWN_SKIP`, `DOWN_FAIL` (DownloadOutcome = Completed | Skipped | Failed).
Their constant declarations are in a repository file missing from `src/`;
their use is visible throughout `downloadWorker`. -/
inductive DownStatus where
  | ok
  | skip
  | fail
deriving DecidableEq, Repr

/-- One per-download statistic (`DownStat`): size, duration and status. -/
structure DownStat where
  size : Int
  duration : Int
  status : DownStatus
deriving DecidableEq, Repr

/-- Aggregated statistics (`TotalStat`). -/
structure TotalStat where
  size : Int
  duration : Int
  count : Int
  expectedDownloadCount : Int
deriving DecidableEq, Repr

/-- The result of `TotalStat.Status()`: true iff `Count` equals the
`expectedDownloadCount` recorded in the snapshot. -/
def totalStatStatus (t : TotalStat) : Bool :=
  t.count == t.expectedDownloadCount

/-- Errors arising in the download pipeline (`downloadError` plus the
wrapped transport, copy, filesystem and mismatch errors). `noAttempts`
is the empty error log returned by a retry loop given zero attempts. -/
inductive DlError where
  | getErr (msg : String)
  | downloadError (sha : Digest) (statusCode : Nat) (status : String)
  | copyErr (msg : String)
  | shaMismatch (got expected : Digest)
  | openErr
  | renameErr
  | noAttempts
deriving DecidableEq, Repr

/-- An HTTP response as `downloadFileToWriter` consumes it: status code,
status text, the body bytes that stream successfully, and an optional
read error after those bytes (`none` means the body streamed to EOF). -/
structure HttpResponse where
  statusCode : Nat
  status : String
  chunk : List Nat
  readErr : Option String
deriving DecidableEq, Repr

/-- The `downloadFileToWriter` function: one GET, non-200 check, stream
body into writer and hasher, verify the digest of the received bytes.
Returns the bytes written to the writer together with the Go result
(`size` on success, error otherwise). On a mid-stream read error the
bytes copied so far have already reached the writer. -/
def downloadFileToWriter (hashFn : List Nat → Digest) (expectedSha : Digest)
    (resp : Except String HttpResponse) : List Nat × Except DlError Int :=
  match resp with
  | .error msg => ([], .error (.getErr msg))
  | .ok r =>
    if r.statusCode ≠ 200 then
      ([], .error (.downloadError expectedSha r.statusCode r.status))
    else
      match r.readErr with
      | some msg => (r.chunk, .error (.copyErr msg))
      | none =>
        let downSha := hashFn r.chunk
        if downSha ≠ expectedSha then
          (r.chunk, .error (.shaMismatch downSha expectedSha))
        else
          (r.chunk, .ok (r.chunk.length : Int))

/-- The filesystem state at the two paths one download touches:
the temp path `{target}.temp` and the final target path. `none` means
no file at the path. -/
structure FS where
  temp : Option (List Nat)
  final : Option (List Nat)
deriving DecidableEq, Repr

instance {α β : Type} [DecidableEq α] [DecidableEq β] :
    DecidableEq (Except α β) := fun a b =>
  match a, b with
  | .error x, .error y =>
    if h : x = y then .isTrue (by simp [h]) else .isFalse (by simp [h])
  | .error _, .ok _ => .isFalse (by simp)
  | .ok _, .error _ => .isFalse (by simp)
  | .ok x, .ok y =>
    if h : x = y then .isTrue (by simp [h]) else .isFalse (by simp [h])

/-- Result of `downloadFileViaTempFile`: the sequence of filesystem
states it passes through (starting with the initial state), the final
state, and the Go result. -/
structure ViaTempResult where
  trace : List FS
  fsEnd : FS
  result : Except DlError Int
deriving DecidableEq, Repr

/-- The `downloadFileViaTempFile` function. Steps, mirroring the source:
construct the temp path (succeeds: the path string is nonempty); remove a
stale temp file if present; `downloadFile` = open a writer on the temp
path (`openOk` oracle; creates an empty file) and stream into it via
`downloadFileToWriter`; on success rename temp → final (`renameOk`
oracle); the deferred cleanup removes the temp file whenever an error is
being returned. -/
def downloadFileViaTempFile (hashFn : List Nat → Digest) (expectedSha : Digest)
    (resp : Except String HttpResponse) (openOk renameOk : Bool)
    (fs0 : FS) : ViaTempResult :=
  let fs1 : FS := ⟨none, fs0.final⟩
  if openOk = false then
    ⟨[fs0, fs1], fs1, .error .openErr⟩
  else
    let fs2 : FS := ⟨some [], fs1.final⟩
    let wr := downloadFileToWriter hashFn expectedSha resp
    let fs3 : FS := ⟨some wr.1, fs1.final⟩
    match wr.2 with
    | .error e =>
      let fs4 : FS := ⟨none, fs1.final⟩
      ⟨[fs0, fs1, fs2, fs3, fs4], fs4, .error e⟩
    | .ok size =>
      if renameOk then
        let fs4 : FS := ⟨none, some wr.1⟩
        ⟨[fs0, fs1, fs2, fs3, fs4], fs4, .ok size⟩
      else
        let fs4 : FS := ⟨none, fs1.final⟩
        ⟨[fs0, fs1, fs2, fs3, fs4], fs4, .error .renameErr⟩

/-- The `retry.RetryIf` classifier passed by `downloadWorker`: an error
stops the retrying iff it is a `downloadError` with status code 404. -/
def retryIfGo (e : DlError) : Bool :=
  match e with
  | .downloadError _ statusCode _ => if statusCode = 404 then false else true
  | _ => true

/-- Modelled from the spec: the retry loop of the retry library
(`retry.Do`, absent from `src/`; only its call site is). `f n` is the
result of the n-th attempt; `fuel` is the number of attempts still
allowed. Runs attempts until success, a permanent classification by
`retryIf`, or exhaustion; returns the last result and the number of
attempts made (starting from attempt index `n`). -/
def retryGo (retryIf : DlError → Bool) (f : Nat → Except DlError Int) :
    Nat → Nat → Except DlError Int × Nat
  | 0, _ => (.error .noAttempts, 0)
  | 1, n => (f n, n + 1)
  | fuel + 2, n =>
    match f n with
    | .ok a => (.ok a, n + 1)
    | .error e =>
      if retryIf e then retryGo retryIf f (fuel + 1) (n + 1)
      else (.error e, n + 1)

/-- Modelled from the spec: `retry.Do` with a maximum attempt count and a
fixed, not exponential, configured delay — a constant pause between each
pair of consecutive attempts (no pause after the last attempt). Returns
the result, the number of attempts made, and the list of pauses slept. -/
def retryDo (attempts : Nat) (delay : Int) (retryIf : DlError → Bool)
    (f : Nat → Except DlError Int) : Except DlError Int × Nat × List Int :=
  let r := retryGo retryIf f attempts 0
  (r.1, r.2, List.replicate (r.2 - 1) delay)

/-- Worker-relevant configuration of the `StorClient` (fields of
`StorClientOpts` plus `UpperCase`/`Suffix`, as read by `downloadWorker`
and `retry.Do`). The filename string itself is never observed by any
claim, so `UpperCase`/`Suffix` are carried but the existence check on the
computed target path is the per-digest oracle `ShaEnv.fileExists`. -/
structure WorkerCfg where
  upperCase : Bool
  sfx : String
  devnull : Bool
  retryAttempts : Nat
  retryDelay : Int
deriving Repr

/-- Per-digest oracle for the external world one worker iteration sees:
whether `pathutil.NewPath` on the target succeeds, whether the target
file already exists, the HTTP response of the n-th GET attempt, whether
`OpenWriter` on the temp path succeeds, whether the final rename
succeeds, and the observed elapsed duration `time.Since(startTime)`. -/
structure ShaEnv where
  pathOk : Bool
  fileExists : Bool
  responses : Nat → Except String HttpResponse
  openOk : Bool
  renameOk : Bool
  duration : Int

/-- One download attempt as passed to `retry.Do` by `downloadWorker`:
either `downloadFileToDevnull` (a plain `downloadFileToWriter` into a
discard sink) or `downloadFileViaTempFile`. The expected sha is the
submitted digest itself. A failed `downloadFileViaTempFile` leaves the
temp path clear and the final path untouched, so the Go result of the
n-th attempt does not depend on the filesystem state; it is taken on the
canonical empty state. -/
def attemptRes (hashFn : List Nat → Digest) (cfg : WorkerCfg) (env : ShaEnv)
    (sha : Digest) (n : Nat) : Except DlError Int :=
  if cfg.devnull then
    (downloadFileToWriter hashFn sha (env.responses n)).2
  else
    (downloadFileViaTempFile hashFn sha (env.responses n)
      env.openOk env.renameOk ⟨none, none⟩).result

/-- The observable result of one `downloadWorker` iteration on a real
(non-sentinel) digest: the emitted `DownStat`, the in-flight tracker
after the iteration, the number of HTTP GET requests issued, whether the
worker claimed the digest in the tracker (`ContainsOrAdd` returned
true), the number of download attempts made, and the pauses slept
between attempts. -/
structure ShaResult where
  stat : DownStat
  tracker : List Digest
  gets : Nat
  claimed : Bool
  attemptsMade : Nat
  delays : List Int

/-- One iteration of the `downloadWorker` loop body on a real digest,
mirroring the source: `NewPath` failure emits `DOWN_FAIL` and continues;
an existing target file emits `DOWN_SKIP`; a failed `ContainsOrAdd`
(digest already in flight) emits `DOWN_SKIP`; otherwise the worker runs
the fetch under `retry.Do`, then unconditionally `Del`s the digest from
the tracker, and emits `DOWN_FAIL` (zero size and duration) or
`DOWN_OK` (size and elapsed duration). Each attempt issues exactly one
GET except that a non-devnull attempt whose `OpenWriter` fails issues
none (the open precedes the GET in `downloadFile`). -/
def processSha (hashFn : List Nat → Digest) (cfg : WorkerCfg) (env : ShaEnv)
    (tracker : List Digest) (sha : Digest) : ShaResult :=
  if env.pathOk = false then
    ⟨⟨0, 0, .fail⟩, tracker, 0, false, 0, []⟩
  else if env.fileExists then
    ⟨⟨0, 0, .skip⟩, tracker, 0, false, 0, []⟩
  else if sha ∈ tracker then
    ⟨⟨0, 0, .skip⟩, tracker, 0, false, 0, []⟩
  else
    let tr1 := sha :: tracker
    let r := retryDo cfg.retryAttempts cfg.retryDelay retryIfGo
      (attemptRes hashFn cfg env sha)
    let tr2 := tr1.erase sha
    let getsPerAttempt := if cfg.devnull || env.openOk then 1 else 0
    match r.1 with
    | .error _ =>
      ⟨⟨0, 0, .fail⟩, tr2, r.2.1 * getsPerAttempt, true, r.2.1, r.2.2⟩
    | .ok size =>
      ⟨⟨size, env.duration, .ok⟩, tr2, r.2.1 * getsPerAttempt, true, r.2.1, r.2.2⟩

/-- One worker draining the queue (`for sha := range shasForDownload`):
processes digests until the termination sentinel, at which point it
returns. Yields the emitted stats in order, the tracker after the drain,
and the part of the queue the worker did not consume. -/
def drainQueue (hashFn : List Nat → Digest) (cfg : WorkerCfg)
    (env : Digest → ShaEnv) (tracker : List Digest) :
    List Digest → List DownStat × List Digest × List Digest
  | [] => ([], tracker, [])
  | sha :: rest =>
    if sha = workerEnd then ([], tracker, rest)
    else
      let r := processSha hashFn cfg (env sha) tracker sha
      let d := drainQueue hashFn cfg env r.tracker rest
      (r.stat :: d.1, d.2.1, d.2.2)

/-- The worker pool under a sequential schedule: worker after worker
drains the queue up to its own termination sentinel. The shared tracker
is threaded through. Counts and sums of the emitted stats do not depend
on interleaving, which is all the claims about the pool observe. -/
def drainAll (hashFn : List Nat → Digest) (cfg : WorkerCfg)
    (env : Digest → ShaEnv) : Nat → List Digest → List Digest → List DownStat
  | 0, _, _ => []
  | w + 1, tracker, queue =>
    let d := drainQueue hashFn cfg env tracker queue
    d.1 ++ drainAll hashFn cfg env w d.2.1 d.2.2

/-- The loop body of `processStats`: fold the incoming stats into the
running total (`Size`, `Duration`, `Count`). -/
def statsFold (t : TotalStat) : List DownStat → TotalStat
  | [] => t
  | s :: rest =>
    statsFold ⟨t.size + s.size, t.duration + s.duration, t.count + 1,
      t.expectedDownloadCount⟩ rest

/-- The `processStats` goroutine: initialises the total with the value
of `client.expectedDownloadCount` it reads when it begins (it is spawned
inside `Start()`, and the read is unsynchronised with `Download`), then
folds the outcome stream until the stream is closed. -/
def processStats (expectedAtSpawn : Int) (stats : List DownStat) : TotalStat :=
  statsFold ⟨0, 0, 0, expectedAtSpawn⟩ stats

/-- The caller-visible pool state: the `expectedDownloadCount` counter
and the submission queue. -/
structure ClientState where
  expectedDownloadCount : Int
  queue : List Digest
deriving Repr

/-- A fresh client (`New`): zero expected count, empty queue. -/
def newClient : ClientState := ⟨0, []⟩

/-- The `Start()` call: spawns the workers and the `processStats`
goroutine. `processStats` reads `client.expectedDownloadCount` at its
start; we model the schedule in which the spawned goroutine runs at
spawn time, so the snapshot it takes is the counter's value at `Start`
(the read races with later `Download` increments either way). Returns
the unchanged state and that snapshot. -/
def startClient (c : ClientState) : ClientState × Int :=
  (c, c.expectedDownloadCount)

/-- The `Download(sha)` call: increments `expectedDownloadCount` and
enqueues the digest. -/
def download (c : ClientState) (sha : Digest) : ClientState :=
  ⟨c.expectedDownloadCount + 1, c.queue ++ [sha]⟩

/-- The outcome stream of a whole run as `Wait()` closes it: one
termination sentinel per worker is appended after all submissions, and
the workers drain the queue. -/
def runStats (hashFn : List Nat → Digest) (cfg : WorkerCfg)
    (env : Digest → ShaEnv) (maxWorkers : Nat) (c : ClientState) :
    List DownStat :=
  drainAll hashFn cfg env maxWorkers []
    (c.queue ++ List.replicate maxWorkers workerEnd)

/-- The `Wait()` call: sends the sentinels, waits for the workers,
closes the outcome stream and receives the total produced by
`processStats` (whose expected-count snapshot was taken at its spawn in
`Start`). -/
def waitClient (hashFn : List Nat → Digest) (cfg : WorkerCfg)
    (env : Digest → ShaEnv) (maxWorkers : Nat) (c : ClientState)
    (snapshot : Int) : TotalStat :=
  processStats snapshot (runStats hashFn cfg env maxWorkers c)

/-- Modelled from the source plus Go panic semantics, for the panic exit
path of `downloadWorker`: `client.currentDownloads.Del(sha)` at
download.go:133 is a plain statement, not a deferred call (only
`client.wg.Done()` is deferred, at line 47), so a panic inside the
fetch-with-retry sequence unwinds past the `Del`. The gate checks mirror
`processSha`; `fetchPanics` says whether the fetch-with-retry sequence
panics. A `none` first component means the iteration panicked and
emitted no stat; the second component is the tracker afterwards. -/
def processShaPanic (tracker : List Digest) (sha : Digest)
    (pathOk fileExists : Bool) (fetchPanics : Bool)
    (fetchRes : Except DlError Int) (dur : Int) :
    Option DownStat × List Digest :=
  if pathOk = false then (some ⟨0, 0, .fail⟩, tracker)
  else if fileExists then (some ⟨0, 0, .skip⟩, tracker)
  else if sha ∈ tracker then (some ⟨0, 0, .skip⟩, tracker)
  else
    let tr1 := sha :: tracker
    if fetchPanics then (none, tr1)
    else
      let tr2 := tr1.erase sha
      match fetchRes with
      | .error _ => (some ⟨0, 0, .fail⟩, tr2)
      | .ok size => (some ⟨size, dur, .ok⟩, tr2)

/-- Sample hash function for concrete runs: the digest of a byte list is
the singleton of its length. -/
def sampleHash : List Nat → Digest := fun bytes => [bytes.length]

/-- Sample worker configuration: no upper-casing, empty filename
extension, files (not devnull), 10 attempts, delay 100. -/
def sampleCfg : WorkerCfg := ⟨false, "", false, 10, 100⟩

/-- Sample environment: the server answers 200 with body `[7]`. -/
def sampleEnvOk : ShaEnv :=
  ⟨true, false, fun _ => .ok ⟨200, "OK", [7], none⟩, true, true, 5⟩

/-- Sample environment: the server answers 404 on every attempt. -/
def sampleEnv404 : ShaEnv :=
  ⟨true, false, fun _ => .ok ⟨404, "Not Found", [], none⟩, true, true, 5⟩

/-- Sample environment: the transport fails on every attempt. -/
def sampleEnvRefused : ShaEnv :=
  ⟨true, false, fun _ => .error "connection refused", true, true, 5⟩

/-- Sample environment: the target file already exists. -/
def sampleEnvExists : ShaEnv :=
  ⟨true, true, fun _ => .error "unused", true, true, 5⟩

theorem statsFold_spec (l : List DownStat) : ∀ t : TotalStat,
    statsFold t l =
      ⟨t.size + (l.map DownStat.size).sum,
       t.duration + (l.map DownStat.duration).sum,
       t.count + (l.length : Int), t.expectedDownloadCount⟩ := by
  induction l with
  | nil => intro t; simp [statsFold]
  | cons s rest ih =>
    intro t
    simp only [statsFold, ih, List.map_cons, List.sum_cons, List.length_cons,
      TotalStat.mk.injEq]
    refine ⟨by ring, by ring, by push_cast; ring, trivial⟩

theorem retryGo_permanent (retryIf : DlError → Bool)
    (f : Nat → Except DlError Int) (e : DlError) (fuel : Nat)
    (hf : f 0 = .error e) (hperm : retryIf e = false) (hfuel : 1 ≤ fuel) :
    retryGo retryIf f fuel 0 = (.error e, 1) := by
  rcases fuel with _ | _ | k
  · omega
  · simp [retryGo, hf]
  · simp [retryGo, hf, hperm]

theorem retryGo_exhaust (retryIf : DlError → Bool)
    (f : Nat → Except DlError Int)
    (hf : ∀ n, ∃ e, f n = .error e ∧ retryIf e = true) :
    ∀ fuel, 1 ≤ fuel → ∀ n, ∃ e,
      retryGo retryIf f fuel n = (.error e, n + fuel) := by
  intro fuel
  induction fuel with
  | zero => omega
  | succ k ih =>
    intro _ n
    rcases k with _ | k2
    · obtain ⟨e, he, -⟩ := hf n
      exact ⟨e, by simp [retryGo, he]⟩
    · obtain ⟨e, he, hr⟩ := hf n
      obtain ⟨e2, he2⟩ := ih (by omega) (n + 1)
      refine ⟨e2, ?_⟩
      have harith : n + (k2 + 2) = (n + 1) + (k2 + 1) := by omega
      rw [harith]
      simpa [retryGo, he, hr] using he2

theorem attemptRes_of_resp_error (hashFn : List Nat → Digest)
    (cfg : WorkerCfg) (env : ShaEnv) (sha : Digest) (n : Nat) (m : String)
    (h : env.responses n = .error m) (hopen : env.openOk = true) :
    attemptRes hashFn cfg env sha n = .error (.getErr m) := by
  cases hdev : cfg.devnull <;>
    simp [attemptRes, downloadFileViaTempFile, downloadFileToWriter,
      hdev, h, hopen]

theorem attemptRes_of_status (hashFn : List Nat → Digest)
    (cfg : WorkerCfg) (env : ShaEnv) (sha : Digest) (n : Nat)
    (r : HttpResponse) (h : env.responses n = .ok r)
    (hne : r.statusCode ≠ 200) (hopen : env.openOk = true) :
    attemptRes hashFn cfg env sha n =
      .error (.downloadError sha r.statusCode r.status) := by
  cases hdev : cfg.devnull <;>
    simp [attemptRes, downloadFileViaTempFile, downloadFileToWriter,
      hdev, h, hne, hopen]

/-- Claim C3: for every non-devnull download started with no file at the
final path, every filesystem state `downloadFileViaTempFile` passes
through has either no file at the final path or a file whose digest is
the expected one; and a file at the final path at the end means the call
returned its size successfully, i.e. the only way a file appears there
is the rename executed after the streamed digest was verified. -/
theorem dlViaTempFile_final_path_verified (hashFn : List Nat → Digest)
    (expectedSha : Digest) (resp : Except String HttpResponse)
    (openOk renameOk : Bool) (fs0 : FS) (h0 : fs0.final = none) :
    (∀ fs ∈ (downloadFileViaTempFile hashFn expectedSha resp
        openOk renameOk fs0).trace,
      ∀ c, fs.final = some c → hashFn c = expectedSha) ∧
    (∀ c, (downloadFileViaTempFile hashFn expectedSha resp
        openOk renameOk fs0).fsEnd.final = some c →
      hashFn c = expectedSha ∧
      (downloadFileViaTempFile hashFn expectedSha resp
        openOk renameOk fs0).result = .ok (c.length : Int)) := by
  rcases resp with msg | r
  · cases openOk <;>
      simp [downloadFileViaTempFile, downloadFileToWriter, h0]
  · by_cases h200 : r.statusCode = 200
    · rcases hre : r.readErr with _ | msg
      · by_cases hh : hashFn r.chunk = expectedSha
        · cases openOk <;> cases renameOk <;>
            simp [downloadFileViaTempFile, downloadFileToWriter,
              h200, hre, hh, h0]
        · cases openOk <;>
            simp [downloadFileViaTempFile, downloadFileToWriter,
              h200, hre, hh, h0]
      · cases openOk <;>
          simp [downloadFileViaTempFile, downloadFileToWriter,
            h200, hre, h0]
    · cases openOk <;>
        simp [downloadFileViaTempFile, downloadFileToWriter, h200, h0]

/-- Claim C3 witness: a successful concrete download commits the
verified content to the final path. -/
theorem dlViaTempFile_final_path_verified_witness :
    sampleHash [7] = [1] ∧
    (downloadFileViaTempFile sampleHash [1]
      (.ok ⟨200, "OK", [7], none⟩) true true ⟨some [9], none⟩).result =
      .ok (([7] : List Nat).length : Int) :=
  (dlViaTempFile_final_path_verified sampleHash [1]
    (.ok ⟨200, "OK", [7], none⟩) true true ⟨some [9], none⟩ rfl).2 [7] rfl

/-- Claim C4: every invocation of `downloadFileViaTempFile` removes a
stale temp file before downloading (the second filesystem state it
passes through has nothing at the temp path), and on every error return
the temp path is empty in the final filesystem state — no partial
artifact remains. -/
theorem dlViaTempFile_temp_cleanup (hashFn : List Nat → Digest)
    (expectedSha : Digest) (resp : Except String HttpResponse)
    (openOk renameOk : Bool) (fs0 : FS) :
    (∀ e, (downloadFileViaTempFile hashFn expectedSha resp
        openOk renameOk fs0).result = .error e →
      (downloadFileViaTempFile hashFn expectedSha resp
        openOk renameOk fs0).fsEnd.temp = none) ∧
    (downloadFileViaTempFile hashFn expectedSha resp
        openOk renameOk fs0).trace.take 2 = [fs0, ⟨none, fs0.final⟩] := by
  rcases resp with msg | r
  · cases openOk <;>
      simp [downloadFileViaTempFile, downloadFileToWriter]
  · by_cases h200 : r.statusCode = 200
    · rcases hre : r.readErr with _ | msg
      · by_cases hh : hashFn r.chunk = expectedSha
        · cases openOk <;> cases renameOk <;>
            simp [downloadFileViaTempFile, downloadFileToWriter,
              h200, hre, hh]
        · cases openOk <;>
            simp [downloadFileViaTempFile, downloadFileToWriter,
              h200, hre, hh]
      · cases openOk <;>
          simp [downloadFileViaTempFile, downloadFileToWriter,
            h200, hre]
    · cases openOk <;>
        simp [downloadFileViaTempFile, downloadFileToWriter, h200]

/-- Claim C4 witness: a concrete digest-mismatch download (stale temp
file present at the start) leaves nothing at the temp path. -/
theorem dlViaTempFile_temp_cleanup_witness :
    (downloadFileViaTempFile sampleHash [2]
      (.ok ⟨200, "OK", [7], none⟩) true true ⟨some [9], none⟩).fsEnd.temp =
        none ∧
    (downloadFileViaTempFile sampleHash [2]
      (.ok ⟨200, "OK", [7], none⟩) true true ⟨some [9], none⟩).trace.take 2 =
      [⟨some [9], none⟩, ⟨none, none⟩] :=
  ⟨(dlViaTempFile_temp_cleanup sampleHash [2]
      (.ok ⟨200, "OK", [7], none⟩) true true ⟨some [9], none⟩).1
      (.shaMismatch [1] [2]) rfl,
   (dlViaTempFile_temp_cleanup sampleHash [2]
      (.ok ⟨200, "OK", [7], none⟩) true true ⟨some [9], none⟩).2⟩

/-- Claim C5: for every received HTTP response, `downloadFileToWriter`
fails with a `downloadError` carrying the expected digest, the status
code and the status text iff the status is not 200; when the body
streams to completion it fails with the content-mismatch error iff the
digest of the received bytes differs from the expected one, and
otherwise returns the number of bytes transferred. -/
theorem dlToWriter_spec (hashFn : List Nat → Digest)
    (expectedSha : Digest) (r : HttpResponse) :
    ((∃ s c st, (downloadFileToWriter hashFn expectedSha (.ok r)).2 =
        .error (.downloadError s c st)) ↔ r.statusCode ≠ 200) ∧
    (r.statusCode ≠ 200 →
      (downloadFileToWriter hashFn expectedSha (.ok r)).2 =
        .error (.downloadError expectedSha r.statusCode r.status)) ∧
    (r.statusCode = 200 → r.readErr = none →
      (((downloadFileToWriter hashFn expectedSha (.ok r)).2 =
          .error (.shaMismatch (hashFn r.chunk) expectedSha)) ↔
        hashFn r.chunk ≠ expectedSha) ∧
      (hashFn r.chunk = expectedSha →
        (downloadFileToWriter hashFn expectedSha (.ok r)).2 =
          .ok (r.chunk.length : Int))) := by
  by_cases h200 : r.statusCode = 200
  · rcases hre : r.readErr with _ | msg
    · by_cases hh : hashFn r.chunk = expectedSha <;>
        simp [downloadFileToWriter, h200, hre, hh]
    · simp [downloadFileToWriter, h200, hre]
  · simp [downloadFileToWriter, h200]

/-- Claim C5 witness: a concrete 404 response produces the
`downloadError` with the digest, the code and the text. -/
theorem dlToWriter_spec_witness :
    (downloadFileToWriter sampleHash [1]
      (.ok ⟨404, "Not Found", [], none⟩)).2 =
      .error (.downloadError [1] 404 "Not Found") :=
  (dlToWriter_spec sampleHash [1] ⟨404, "Not Found", [], none⟩).2.1
    (by decide)

/-- Claim C2: the retry classifier treats an error as permanent iff it
is a `downloadError` whose status code is 404; consequently a digest
whose server response is 404 yields a Failed outcome after exactly one
HTTP GET attempt, regardless of the configured attempt count, while all
other errors (transport, content-mismatch, filesystem) are retried. -/
theorem notFound_is_permanent (hashFn : List Nat → Digest)
    (cfg : WorkerCfg) (env : ShaEnv) (tracker : List Digest) (sha : Digest)
    (r : HttpResponse) (hresp : env.responses 0 = .ok r)
    (h404 : r.statusCode = 404) (hpath : env.pathOk = true)
    (hex : env.fileExists = false) (htr : sha ∉ tracker)
    (hopen : env.openOk = true) (hatt : 1 ≤ cfg.retryAttempts) :
    (∀ e, retryIfGo e = false ↔
      ∃ s st, e = DlError.downloadError s 404 st) ∧
    (processSha hashFn cfg env tracker sha).gets = 1 ∧
    (processSha hashFn cfg env tracker sha).attemptsMade = 1 ∧
    (processSha hashFn cfg env tracker sha).stat.status =
      DownStatus.fail := by
  have hclass : ∀ e, retryIfGo e = false ↔
      ∃ s st, e = DlError.downloadError s 404 st := by
    intro e
    cases e with
    | downloadError s c st =>
      by_cases hc : c = 404 <;> simp [retryIfGo, hc]
    | _ => simp [retryIfGo]
  have hatt0 : attemptRes hashFn cfg env sha 0 =
      .error (.downloadError sha r.statusCode r.status) :=
    attemptRes_of_status hashFn cfg env sha 0 r hresp (by omega) hopen
  have hperm : retryIfGo (.downloadError sha r.statusCode r.status) =
      false := by
    simp [retryIfGo, h404]
  have hgo := retryGo_permanent retryIfGo (attemptRes hashFn cfg env sha)
    _ cfg.retryAttempts hatt0 hperm hatt
  have hdo : retryDo cfg.retryAttempts cfg.retryDelay retryIfGo
      (attemptRes hashFn cfg env sha) =
      (.error (.downloadError sha r.statusCode r.status), 1, []) := by
    simp [retryDo, hgo]
  exact ⟨hclass, by simp [processSha, hpath, hex, htr, hdo, hopen]⟩

/-- Claim C2 witness: a concrete always-404 environment produces a
Failed outcome after a single GET, with 10 attempts configured. -/
theorem notFound_is_permanent_witness :
    (processSha sampleHash sampleCfg sampleEnv404 [] [1]).gets = 1 ∧
    (processSha sampleHash sampleCfg sampleEnv404 [] [1]).attemptsMade =
      1 ∧
    (processSha sampleHash sampleCfg sampleEnv404 [] [1]).stat.status =
      DownStatus.fail := by
  have h := notFound_is_permanent sampleHash sampleCfg sampleEnv404 []
    [1] ⟨404, "Not Found", [], none⟩ rfl rfl rfl rfl (by decide) rfl
    (by decide)
  exact ⟨h.2.1, h.2.2.1, h.2.2.2⟩

/-- Claim C6: a worker that dequeues a digest whose computed target file
already exists emits a Skipped outcome, issues no HTTP request, and
makes no in-flight-tracker claim (the tracker is unchanged). -/
theorem skip_existing_file (hashFn : List Nat → Digest) (cfg : WorkerCfg)
    (env : ShaEnv) (tracker : List Digest) (sha : Digest)
    (hpath : env.pathOk = true) (hex : env.fileExists = true) :
    processSha hashFn cfg env tracker sha =
      ⟨⟨0, 0, .skip⟩, tracker, 0, false, 0, []⟩ := by
  simp [processSha, hpath, hex]

/-- Claim C6 witness: concrete skip of an already-present file. -/
theorem skip_existing_file_witness :
    processSha sampleHash sampleCfg sampleEnvExists [[2]] [1] =
      ⟨⟨0, 0, .skip⟩, [[2]], 0, false, 0, []⟩ :=
  skip_existing_file sampleHash sampleCfg sampleEnvExists [[2]] [1]
    rfl rfl

/-- Claim C7: the aggregated `TotalStat` is the fold summing each
outcome's size and duration and counting every outcome; and every
outcome a worker emits is either Completed or carries zero size and
zero duration (Skipped and Failed contribute to the count only). -/
theorem stats_are_fold_of_outcomes (e : Int) (stats : List DownStat)
    (hashFn : List Nat → Digest) (cfg : WorkerCfg) (env : ShaEnv)
    (tracker : List Digest) (sha : Digest) :
    processStats e stats =
      ⟨(stats.map DownStat.size).sum, (stats.map DownStat.duration).sum,
       (stats.length : Int), e⟩ ∧
    ((processSha hashFn cfg env tracker sha).stat.status =
        DownStatus.ok ∨
      ((processSha hashFn cfg env tracker sha).stat.size = 0 ∧
       (processSha hashFn cfg env tracker sha).stat.duration = 0)) := by
  constructor
  · simpa [processStats] using statsFold_spec stats ⟨0, 0, 0, e⟩
  · unfold processSha
    split
    · simp
    · split
      · simp
      · split
        · simp
        · cases hr : (retryDo cfg.retryAttempts cfg.retryDelay retryIfGo
              (attemptRes hashFn cfg env sha)).1 <;> simp [hr]

/-- Claim C8: a digest whose every GET attempt fails at the transport
level produces a Failed outcome after exactly the configured number of
attempts, one GET per attempt, with the fixed configured delay slept
between each pair of consecutive attempts. -/
theorem retry_exhaustion (hashFn : List Nat → Digest) (cfg : WorkerCfg)
    (env : ShaEnv) (tracker : List Digest) (sha : Digest)
    (hresp : ∀ n, ∃ m, env.responses n = .error m)
    (hpath : env.pathOk = true) (hex : env.fileExists = false)
    (htr : sha ∉ tracker) (hopen : env.openOk = true)
    (hatt : 1 ≤ cfg.retryAttempts) :
    (processSha hashFn cfg env tracker sha).attemptsMade =
      cfg.retryAttempts ∧
    (processSha hashFn cfg env tracker sha).gets = cfg.retryAttempts ∧
    (processSha hashFn cfg env tracker sha).stat.status =
      DownStatus.fail ∧
    (processSha hashFn cfg env tracker sha).delays =
      List.replicate (cfg.retryAttempts - 1) cfg.retryDelay := by
  have hf : ∀ n, ∃ e, attemptRes hashFn cfg env sha n = .error e ∧
      retryIfGo e = true := by
    intro n
    obtain ⟨m, hm⟩ := hresp n
    exact ⟨.getErr m,
      attemptRes_of_resp_error hashFn cfg env sha n m hm hopen, rfl⟩
  obtain ⟨e, he⟩ := retryGo_exhaust retryIfGo
    (attemptRes hashFn cfg env sha) hf cfg.retryAttempts hatt 0
  have hdo : retryDo cfg.retryAttempts cfg.retryDelay retryIfGo
      (attemptRes hashFn cfg env sha) =
      (.error e, cfg.retryAttempts,
        List.replicate (cfg.retryAttempts - 1) cfg.retryDelay) := by
    simp [retryDo, he]
  simp [processSha, hpath, hex, htr, hdo, hopen]

/-- Claim C8 witness: with connection refused on every attempt and 10
attempts configured, the worker fails after 10 attempts and 9 pauses of
the configured delay. -/
theorem retry_exhaustion_witness :
    (processSha sampleHash sampleCfg sampleEnvRefused [] [1]).attemptsMade
      = 10 ∧
    (processSha sampleHash sampleCfg sampleEnvRefused [] [1]).delays =
      List.replicate 9 100 := by
  have h := retry_exhaustion sampleHash sampleCfg sampleEnvRefused []
    [1] (fun n => ⟨"connection refused", rfl⟩) rfl rfl (by decide) rfl
    (by decide)
  exact ⟨h.1, h.2.2.2⟩

/-- Claim C9 (amended): every digest a worker successfully claims in the
in-flight tracker is removed from the tracker after the fetch-with-retry
sequence on every normal exit path, success or failure; the removal is
not deferred, so it is not guaranteed on a panic exit. -/
theorem claimed_digest_released (hashFn : List Nat → Digest)
    (cfg : WorkerCfg) (env : ShaEnv) (tracker : List Digest)
    (sha : Digest)
    (h : (processSha hashFn cfg env tracker sha).claimed = true) :
    sha ∉ (processSha hashFn cfg env tracker sha).tracker := by
  by_cases hp : env.pathOk = false
  · simp [processSha, hp] at h
  · by_cases he : env.fileExists
    · simp [processSha, hp, he] at h
    · by_cases ht : sha ∈ tracker
      · simp [processSha, hp, he, ht] at h
      · cases hr : (retryDo cfg.retryAttempts cfg.retryDelay retryIfGo
            (attemptRes hashFn cfg env sha)).1 <;>
          simp [processSha, hp, he, ht, hr, List.erase_cons_head]

/-- Claim C9 witness: a concrete successful claim ends with the digest
out of the tracker. -/
theorem claimed_digest_released_witness :
    [1] ∉ (processSha sampleHash sampleCfg sampleEnvOk [] [1]).tracker :=
  claimed_digest_released sampleHash sampleCfg sampleEnvOk [] [1]
    (by decide)

/-- Claim C9 counterexample: the claim as stated is false on the panic
exit path. `client.currentDownloads.Del(sha)` at download.go:133 is a
plain statement, not a deferred call (only `client.wg.Done()` at line 47
is deferred), so if the fetch-with-retry sequence panics after the
worker claimed digest `[1]`, the claim is never released: the digest is
still in the tracker, and no outcome is emitted. -/
theorem claimed_digest_released_counterexample :
    (processShaPanic [] [1] true false true (.ok 0) 0).1 = none ∧
    [1] ∈ (processShaPanic [] [1] true false true (.ok 0) 0).2 := by
  decide

/-- Claim C10: a worker that dequeues the zero-valued digest treats it
as the termination sentinel and exits without emitting any outcome,
while `Download` still counted it; a run that submits only the
zero-valued digest expects one download but the outcome stream is
empty, so exactly-one-result-per-submission fails for it. -/
theorem sentinel_submission_no_outcome (hashFn : List Nat → Digest)
    (cfg : WorkerCfg) (env : Digest → ShaEnv) (tracker : List Digest)
    (rest : List Digest) :
    drainQueue hashFn cfg env tracker (workerEnd :: rest) =
      ([], tracker, rest) ∧
    (download newClient workerEnd).expectedDownloadCount = 1 ∧
    runStats hashFn cfg env 1 (download newClient workerEnd) = [] := by
  refine ⟨by simp [drainQueue], rfl, ?_⟩
  simp [runStats, drainAll, drainQueue, download, newClient]

/-- Claim C1 (evaluation at the failing input): in the run `Start()`;
`Download([1])`; `Wait()` whose single download succeeds, the outcome
stream carries exactly K = 1 outcome and the processed Count is 1, but
the expected-count snapshot that `processStats` takes when it is
spawned inside `Start()` — before any submission, and racing with them
in general — is 0, not K, so `TotalStat.Status()` returns false even
though every submitted file was downloaded. The claim (with the spec)
says the expected count is captured at shutdown time, equals K, and
`Status()` is true. -/
theorem expected_count_snapshot_taken_at_start :
    (runStats sampleHash sampleCfg (fun _ => sampleEnvOk) 4
      (download (startClient newClient).1 [1])).length = 1 ∧
    (waitClient sampleHash sampleCfg (fun _ => sampleEnvOk) 4
      (download (startClient newClient).1 [1])
      (startClient newClient).2).count = 1 ∧
    (waitClient sampleHash sampleCfg (fun _ => sampleEnvOk) 4
      (download (startClient newClient).1 [1])
      (startClient newClient).2).expectedDownloadCount = 0 ∧
    totalStatStatus (waitClient sampleHash sampleCfg
      (fun _ => sampleEnvOk) 4 (download (startClient newClient).1 [1])
      (startClient newClient).2) = false := by
  decide

end StorClient
